import Mathlib

/-!
Verification of the acquisition-parse-debounce engine of the
homebridge-leak-alarm plugin (`src/index.js`, plus the variant in
`src/unnamed/part_001` which adds the `deviceState` transport-fault
handling).  JavaScript numbers that flow through the engine are modelled
as `Option ℚ`, with `none` standing for `NaN`; machine strings are Lean
`String`s.  The token scanner of `pollSensorState` is embedded
index-faithfully, including its `do { if (sensorData[i++] == "SHT") ... }
while (++i < length)` cursor arithmetic, the stale `thisSensor` variable
that is never reset between records, and the `TypeError` thrown by
`undefined.slice` when a humidity token is read past the end of the
token array.
-/

namespace LeakAlarm

/-- JavaScript numbers as used by the engine: `none` models `NaN`. -/
abbrev JSNum := Option ℚ

/-- JavaScript `+` on two numbers: `NaN` propagates. -/
def jadd : JSNum → JSNum → JSNum
  | some a, some b => some (a + b)
  | _, _ => none

/-- JavaScript `/ 3`: `NaN` propagates. -/
def jdiv3 : JSNum → JSNum
  | some a => some (a / 3)
  | none => none

/-- JavaScript `>` against a plain (non-NaN) threshold: `NaN > t` is false. -/
def jgt (a : JSNum) (t : ℚ) : Bool :=
  match a with
  | some x => decide (t < x)
  | none => false

/-- JavaScript `<` against a plain (non-NaN) threshold: `NaN < t` is false. -/
def jlt (a : JSNum) (t : ℚ) : Bool :=
  match a with
  | some x => decide (x < t)
  | none => false

/-- Numeric value of a list of decimal digit characters. -/
def natOfDigits (cs : List Char) : Nat :=
  cs.foldl (fun n c => 10 * n + (c.toNat - 48)) 0

/-- Value of the fractional part written with the given digit characters. -/
def fracOfDigits (cs : List Char) : ℚ :=
  (natOfDigits cs : ℚ) / ((10 : ℚ) ^ cs.length)

/-- Parse an unsigned decimal literal (`digits`, `digits.digits`, `digits.`
or `.digits`), consuming the whole character list; any other shape is
`none`.  This is the decimal fragment of the ECMAScript `ToNumber` string
grammar, which covers every token the device wire format can carry. -/
def parseUnsigned (cs : List Char) : Option ℚ :=
  let ip := cs.takeWhile (·.isDigit)
  let rest := cs.dropWhile (·.isDigit)
  match rest with
  | [] => if ip.isEmpty then none else some (natOfDigits ip : ℚ)
  | '.' :: fp =>
      if fp.all (·.isDigit) && (!ip.isEmpty || !fp.isEmpty) then
        some ((natOfDigits ip : ℚ) + fracOfDigits fp)
      else none
  | _ => none

/-- The whitespace characters stripped by JavaScript string trimming
(the ASCII ones; device payloads carry no exotic Unicode whitespace). -/
def jsWhitespaceChar (c : Char) : Bool :=
  c = ' ' || c = '\t' || c = '\n' || c = '\r' || c = '\x0b' || c = '\x0c'

/-- Strip leading and trailing whitespace from a character list (the
model of JavaScript `String.prototype.trim`). -/
def trimChars (cs : List Char) : List Char :=
  ((cs.dropWhile jsWhitespaceChar).reverse.dropWhile jsWhitespaceChar).reverse

/-- JavaScript unary `+` coercion of a string (`ToNumber`): trim
whitespace, the empty string coerces to `0`, otherwise parse an optionally
signed decimal literal; any string outside that grammar coerces to `NaN`. -/
def jsStrToNum (s : String) : JSNum :=
  match trimChars s.data with
  | [] => some 0
  | '-' :: cs => (parseUnsigned cs).map (fun q => -q)
  | '+' :: cs => parseUnsigned cs
  | cs => parseUnsigned cs

/-- JavaScript unary `+` applied to an array element that may be
`undefined` (out-of-range index): `+undefined` is `NaN`. -/
def jsToNum : Option String → JSNum
  | some s => jsStrToNum s
  | none => none

/-- JavaScript `s.slice(0, -1)`: drop the final character (the empty
string maps to itself).  Applied by the source to every humidity token,
whatever its final character is. -/
def sliceLast (s : String) : String :=
  String.mk s.data.dropLast

-- status constants from the head of src/index.js
def LEAK_NOT_DETECTED : Nat := 0
def LEAK_DETECTED : Nat := 1
def NO_FAULT : Nat := 0
def GENERAL_FAULT : Nat := 1

/-- The mutable `accessory.state` record of the plugin. -/
structure AccessoryState where
  AlertState : Nat
  deviceState : Nat
  sensor1State : Nat
  sensor1Temp : JSNum
  sensor1Humid : JSNum
  sensor2State : Nat
  sensor2Temp : JSNum
  sensor2Humid : JSNum
  deriving DecidableEq, Repr

/-- The `this.state` initialiser from the constructor. -/
def initState : AccessoryState :=
  { AlertState := LEAK_NOT_DETECTED
    deviceState := NO_FAULT
    sensor1State := NO_FAULT
    sensor1Temp := some 0
    sensor1Humid := some 0
    sensor2State := NO_FAULT
    sensor2Temp := some 0
    sensor2Humid := some 0 }

/-- The `"Detected"` branch of the scanner: store the aggregated
temperature and humidity for channel `n` and mark it `NO_FAULT`.  The
source tests only `thisSensor == 1` and otherwise falls into the
channel-2 branch, which is mirrored here. -/
def setChanOk (n : Nat) (t h : JSNum) (st : AccessoryState) : AccessoryState :=
  if n = 1 then
    { st with sensor1State := NO_FAULT, sensor1Temp := t, sensor1Humid := h }
  else
    { st with sensor2State := NO_FAULT, sensor2Temp := t, sensor2Humid := h }

/-- The non-`"Detected"` branch: mark channel `n` faulted, touching
nothing else. -/
def setChanFault (n : Nat) (st : AccessoryState) : AccessoryState :=
  if n = 1 then { st with sensor1State := GENERAL_FAULT }
  else { st with sensor2State := GENERAL_FAULT }

/-- Result of running the token scan: `crashed st` models the `TypeError`
thrown by `undefined.slice(0,-1)` when a humidity index runs past the end
of `sensorData`; `st` is the accessory state at the moment of the throw
(in-place mutations made before the throw persist). -/
inductive ScanOut where
  | ok (st : AccessoryState)
  | crashed (st : AccessoryState)
  deriving DecidableEq, Repr

/-- The accessory state carried by a scan result. -/
def ScanOut.state : ScanOut → AccessoryState
  | .ok st => st
  | .crashed st => st

/-- Process one record body once `thisSensor > 0` has been established.
`j` is the cursor position of the status token, `ts` the current
`thisSensor`.  Returns the cursor position at the end of the loop body
together with the updated `thisSensor` and state, or the crash state. -/
def scanRecord (sd : List String) (j ts : Nat) (st : AccessoryState) :
    Except AccessoryState (Nat × Nat × AccessoryState) :=
  if sd.get? j = some "Detected" then
    -- thisTemp = ((+sd[++i]) + (+sd[++i]) + (+sd[++i])) / 3; thisHumid
    -- likewise over sd[++i].slice(0,-1), whose read of an undefined
    -- element throws (the .error branch)
    match sd.get? (j + 4), sd.get? (j + 5), sd.get? (j + 6) with
    | some h1, some h2, some h3 =>
        .ok (j + 6, ts, setChanOk ts
          (jdiv3 (jadd (jadd (jsToNum (sd.get? (j + 1)))
            (jsToNum (sd.get? (j + 2)))) (jsToNum (sd.get? (j + 3)))))
          (jdiv3 (jadd (jadd (jsStrToNum (sliceLast h1))
            (jsStrToNum (sliceLast h2))) (jsStrToNum (sliceLast h3)))) st)
    | _, _, _ => .error st
  else
    .ok (j, ts, setChanFault ts st)

/-- One iteration of the `do`-loop body starting with the cursor at `i`
and `thisSensor = ts`.  The returned cursor is the value of `i` at the
end of the body (the loop's `++i` is applied by `scanLoopF`).  Note the
source never resets `thisSensor`: when the token after `"SHT"` is neither
`"1"` nor `"2"` but a previous record set `thisSensor`, the stale channel
is processed against the malformed tokens. -/
def scanStep (sd : List String) (i ts : Nat) (st : AccessoryState) :
    Except AccessoryState (Nat × Nat × AccessoryState) :=
  if sd.get? i = some "SHT" then
    if sd.get? (i + 1) = some "1" then scanRecord sd (i + 3) 1 st
    else if sd.get? (i + 1) = some "2" then scanRecord sd (i + 3) 2 st
    else if 0 < ts then scanRecord sd (i + 1) ts st
    else .ok (i + 1, ts, st)
  else
    .ok (i + 1, ts, st)

/-- The `do { ... } while (++i < sensorData.length)` loop.  `fuel` only
bounds the recursion depth: each iteration advances the cursor by at
least two while the guard keeps it below `sd.length`, so the entry point
`scanTokens` passes `sd.length + 1`, which can never be exhausted. -/
def scanLoopF (sd : List String) : Nat → Nat → Nat → AccessoryState → ScanOut
  | 0, _, _, st => .ok st
  | fuel + 1, i, ts, st =>
    match scanStep sd i ts st with
    | .error st' => .crashed st'
    | .ok (j, ts', st') =>
      if j + 1 < sd.length then scanLoopF sd fuel (j + 1) ts' st'
      else .ok st'

/-- Run the scanner of `pollSensorState` over the split token array,
starting from `i = 0`, `thisSensor = 0`. -/
def scanTokens (sd : List String) (st : AccessoryState) : ScanOut :=
  scanLoopF sd (sd.length + 1) 0 0 st

/-- The hysteresis block of `pollSensorState` (lines 356–370 of
src/index.js), evaluated once per cycle after the scan. -/
def updateAlert (threshold : ℚ) (st : AccessoryState) : AccessoryState :=
  if st.AlertState = LEAK_NOT_DETECTED then
    if jgt st.sensor1Humid threshold || jgt st.sensor2Humid threshold then
      { st with AlertState := LEAK_DETECTED }
    else st
  else
    if jlt st.sensor1Humid threshold && jlt st.sensor2Humid threshold then
      { st with AlertState := LEAK_NOT_DETECTED }
    else st

/-- `rawData.replace(/\r?\n|\r/g, ",")`: the regex alternation scans left
to right, turning each `\r\n` pair, lone `\n`, or lone `\r` into one
comma. -/
def newlinesToCommas : List Char → List Char
  | [] => []
  | '\r' :: '\n' :: rest => ',' :: newlinesToCommas rest
  | '\n' :: rest => ',' :: newlinesToCommas rest
  | '\r' :: rest => ',' :: newlinesToCommas rest
  | c :: rest => c :: newlinesToCommas rest

/-- JavaScript `split(",")`: split at every comma, keeping empty fields;
the empty string yields `[""]`. -/
def splitCommasAux (acc : List Char) : List Char → List String
  | [] => [String.mk acc.reverse]
  | ',' :: rest => String.mk acc.reverse :: splitCommasAux [] rest
  | c :: rest => splitCommasAux (c :: acc) rest

/-- `rawData.trim()`, then line breaks replaced by commas
(`/\r?\n|\r/g`), then `split(",")` — producing the `sensorData` array. -/
def normalizeRaw (raw : String) : List String :=
  splitCommasAux [] (newlinesToCommas (trimChars raw.data))

/-- The processing body of one poll cycle: scan the payload, then (if the
scan did not throw) run the hysteresis update.  A crash skips the alert
update. -/
def processPayload (threshold : ℚ) (raw : String) (st : AccessoryState) : ScanOut :=
  match scanTokens (normalizeRaw raw) st with
  | .ok st' => .ok (updateAlert threshold st')
  | .crashed st' => .crashed st'

/-- Outcome of the `http.get` observed by the 3-second `setTimeout`:
either a response with a status code and the body accumulated so far, a
connection `error` event, or silence — no transport event at all within
the 3-second window (a hung request). -/
inductive FetchOutcome where
  | response (code : Nat) (body : String)
  | connError
  | silent
  deriving DecidableEq, Repr

/-- Effect of the `http.get` callbacks of `src/unnamed/part_001` on
`deviceState`, paired with the `rawData` buffer contents at the 3-second
deadline.  A 200 response sets `NO_FAULT` and delivers the body; a
non-200 response or a connection error sets `GENERAL_FAULT`; a silent
(hung) request fires no callback, leaving `deviceState` untouched and the
buffer empty. -/
def fetchPhase : FetchOutcome → AccessoryState → AccessoryState × String
  | .response code body, st =>
      if code = 200 then ({ st with deviceState := NO_FAULT }, body)
      else ({ st with deviceState := GENERAL_FAULT }, "")
  | .connError, st => ({ st with deviceState := GENERAL_FAULT }, "")
  | .silent, st => (st, "")

/-- One poll cycle of the `src/unnamed/part_001` variant: the 3-second
callback processes the buffer only when `deviceState == NO_FAULT`,
otherwise it merely republishes the fault flag. -/
def pollCycleV2 (threshold : ℚ) (outcome : FetchOutcome) (st : AccessoryState) : ScanOut :=
  let p := fetchPhase outcome st
  if p.1.deviceState = NO_FAULT then processPayload threshold p.2 p.1
  else .ok p.1

/-! ### Helper lemmas about the JavaScript number model -/

theorem jadd_comm (a b : JSNum) : jadd a b = jadd b a := by
  cases a <;> cases b <;> simp [jadd, add_comm]

theorem jadd_assoc (a b c : JSNum) : jadd (jadd a b) c = jadd a (jadd b c) := by
  cases a <;> cases b <;> cases c <;> simp [jadd, add_assoc]

theorem jadd_some_zero (a : JSNum) : jadd a (some 0) = a := by
  cases a <;> simp [jadd]

theorem jadd_none_left (a : JSNum) : jadd none a = none := by
  cases a <;> simp [jadd]

theorem jadd_none_right (a : JSNum) : jadd a none = none := by
  cases a <;> simp [jadd]

theorem jdiv3_none : jdiv3 none = none := rfl

theorem jgt_iff (h : JSNum) (T : ℚ) : jgt h T = true ↔ ∃ q, h = some q ∧ T < q := by
  cases h <;> simp [jgt]

theorem jlt_iff (h : JSNum) (T : ℚ) : jlt h T = true ↔ ∃ q, h = some q ∧ q < T := by
  cases h <;> simp [jlt]

theorem foldr_jadd_perm {l l' : List JSNum} (h : l.Perm l') :
    l.foldr jadd (some 0) = l'.foldr jadd (some 0) := by
  induction h with
  | nil => rfl
  | cons x _ ih => simp only [List.foldr_cons, ih]
  | swap x y l =>
      show jadd y (jadd x _) = jadd x (jadd y _)
      rw [← jadd_assoc, jadd_comm y x, jadd_assoc]
  | trans _ _ ih1 ih2 => exact ih1.trans ih2

theorem jadd3_eq_foldr (a b c : JSNum) :
    jadd (jadd a b) c = [a, b, c].foldr jadd (some 0) := by
  simp only [List.foldr_cons, List.foldr_nil, jadd_some_zero, jadd_assoc]

theorem jadd3_perm {a b c a' b' c' : JSNum} (h : List.Perm [a, b, c] [a', b', c']) :
    jadd (jadd a b) c = jadd (jadd a' b') c' := by
  rw [jadd3_eq_foldr, jadd3_eq_foldr]
  exact foldr_jadd_perm h

theorem sliceLast_append_percent (s : String) : sliceLast (s ++ "%") = s := by
  show String.mk (s.data ++ ['%']).dropLast = s
  rw [List.dropLast_concat]

/-! ### Frame lemmas for the state-updating helpers -/

theorem updateAlert_frame (T : ℚ) (st : AccessoryState) :
    (updateAlert T st).deviceState = st.deviceState
  ∧ (updateAlert T st).sensor1State = st.sensor1State
  ∧ (updateAlert T st).sensor1Temp = st.sensor1Temp
  ∧ (updateAlert T st).sensor1Humid = st.sensor1Humid
  ∧ (updateAlert T st).sensor2State = st.sensor2State
  ∧ (updateAlert T st).sensor2Temp = st.sensor2Temp
  ∧ (updateAlert T st).sensor2Humid = st.sensor2Humid := by
  unfold updateAlert
  split <;> split <;> simp

/-! ### Claim theorems -/

/-- C1: evaluated once per poll cycle over the two published humidity
values, the alert state machine moves from `LeakNotDetected` to
`LeakDetected` exactly when at least one channel's humidity is strictly
greater than the configured threshold, moves from `LeakDetected` to
`LeakNotDetected` exactly when both channels' humidity are strictly less
than the threshold, and otherwise leaves the state unchanged; humidity
exactly equal to the threshold never causes a transition in either
direction, and the channel health flags play no part in the comparison
(a faulted channel's last-known humidity still participates). -/
theorem alert_hysteresis (T : ℚ) (st : AccessoryState) :
    (st.AlertState = LEAK_NOT_DETECTED →
      ((updateAlert T st).AlertState = LEAK_DETECTED ↔
        ((∃ q, st.sensor1Humid = some q ∧ T < q) ∨ (∃ q, st.sensor2Humid = some q ∧ T < q))))
  ∧ (st.AlertState = LEAK_DETECTED →
      ((updateAlert T st).AlertState = LEAK_NOT_DETECTED ↔
        ((∃ q, st.sensor1Humid = some q ∧ q < T) ∧ (∃ q, st.sensor2Humid = some q ∧ q < T))))
  ∧ (st.AlertState = LEAK_NOT_DETECTED →
      ¬((∃ q, st.sensor1Humid = some q ∧ T < q) ∨ (∃ q, st.sensor2Humid = some q ∧ T < q)) →
      updateAlert T st = st)
  ∧ (st.AlertState = LEAK_DETECTED →
      ¬((∃ q, st.sensor1Humid = some q ∧ q < T) ∧ (∃ q, st.sensor2Humid = some q ∧ q < T)) →
      updateAlert T st = st)
  ∧ (st.sensor1Humid = some T → st.sensor2Humid = some T → updateAlert T st = st)
  ∧ (∀ f1 f2, (updateAlert T { st with sensor1State := f1, sensor2State := f2 }).AlertState
      = (updateAlert T st).AlertState) := by
  obtain ⟨a, dv, f1', tp1, hm1, f2', tp2, hm2⟩ := st
  refine ⟨?_, ?_, ?_, ?_, ?_, ?_⟩
  · intro h0
    simp only at h0
    subst h0
    cases hm1 with
    | none =>
      cases hm2 with
      | none => simp [updateAlert, jgt, LEAK_NOT_DETECTED, LEAK_DETECTED]
      | some y =>
        by_cases hy : T < y <;>
          simp [updateAlert, jgt, LEAK_NOT_DETECTED, LEAK_DETECTED, hy]
    | some x =>
      cases hm2 with
      | none =>
        by_cases hx : T < x <;>
          simp [updateAlert, jgt, LEAK_NOT_DETECTED, LEAK_DETECTED, hx]
      | some y =>
        by_cases hx : T < x <;> by_cases hy : T < y <;>
          simp [updateAlert, jgt, LEAK_NOT_DETECTED, LEAK_DETECTED, hx, hy]
  · intro h1
    simp only at h1
    subst h1
    cases hm1 with
    | none =>
      cases hm2 with
      | none => simp [updateAlert, jlt, LEAK_NOT_DETECTED, LEAK_DETECTED]
      | some y =>
        by_cases hy : y < T <;>
          simp [updateAlert, jlt, LEAK_NOT_DETECTED, LEAK_DETECTED, hy]
    | some x =>
      cases hm2 with
      | none =>
        by_cases hx : x < T <;>
          simp [updateAlert, jlt, LEAK_NOT_DETECTED, LEAK_DETECTED, hx]
      | some y =>
        by_cases hx : x < T <;> by_cases hy : y < T <;>
          simp [updateAlert, jlt, LEAK_NOT_DETECTED, LEAK_DETECTED, hx, hy]
  · intro h0 hno
    simp only at h0
    subst h0
    have g1 : jgt hm1 T = false := by
      cases hb : jgt hm1 T
      · rfl
      · exact absurd (Or.inl ((jgt_iff hm1 T).mp hb)) hno
    have g2 : jgt hm2 T = false := by
      cases hb : jgt hm2 T
      · rfl
      · exact absurd (Or.inr ((jgt_iff hm2 T).mp hb)) hno
    simp [updateAlert, LEAK_NOT_DETECTED, g1, g2]
  · intro h1 hno
    simp only at h1
    subst h1
    by_cases hb1 : jlt hm1 T = true
    · by_cases hb2 : jlt hm2 T = true
      · exact absurd ⟨(jlt_iff hm1 T).mp hb1, (jlt_iff hm2 T).mp hb2⟩ hno
      · simp [updateAlert, LEAK_NOT_DETECTED, LEAK_DETECTED, hb1,
          Bool.eq_false_iff.mpr hb2]
    · simp [updateAlert, LEAK_NOT_DETECTED, LEAK_DETECTED,
        Bool.eq_false_iff.mpr hb1]
  · intro he1 he2
    simp only at he1 he2
    subst he1
    subst he2
    have hg : jgt (some T) T = false := by simp [jgt]
    have hl : jlt (some T) T = false := by simp [jlt]
    simp only [updateAlert, hg, hl, Bool.or_self, Bool.and_self]
    split <;> rfl
  · intro g1 g2
    simp only [updateAlert]
    split <;> split <;> rfl

/-- Witness for C1: with threshold 90, prior state `LeakNotDetected` and
humidities 91 and 50, the machine transitions to `LeakDetected`. -/
theorem alert_hysteresis_wit :
    (updateAlert 90
      { initState with sensor1Humid := some 91, sensor2Humid := some 50 }).AlertState
      = LEAK_DETECTED :=
  ((alert_hysteresis 90
      { initState with sensor1Humid := some 91, sensor2Humid := some 50 }).1
    rfl).mpr (Or.inl ⟨91, rfl, by norm_num⟩)

/-- C10: every humidity token of a `"Detected"` record has its final
character removed by `slice(0,-1)` before numeric coercion, whether or
not that character is `'%'`; the token `"91"` is therefore coerced as
`9`, and the empty token is coerced as the empty string, which
JavaScript turns into `0` rather than an error. -/
theorem humidity_token_last_char_stripped :
    (∀ (loc t1 t2 t3 h1 h2 h3 : String) (st : AccessoryState),
      scanTokens ["SHT", "1", loc, "Detected", t1, t2, t3, h1, h2, h3] st =
        .ok (setChanOk 1
          (jdiv3 (jadd (jadd (jsStrToNum t1) (jsStrToNum t2)) (jsStrToNum t3)))
          (jdiv3 (jadd (jadd (jsStrToNum (sliceLast h1)) (jsStrToNum (sliceLast h2)))
            (jsStrToNum (sliceLast h3)))) st))
  ∧ sliceLast "91" = "9"
  ∧ jsStrToNum (sliceLast "91") = some 9
  ∧ sliceLast "" = ""
  ∧ jsStrToNum (sliceLast "") = some 0 := by
  refine ⟨?_, by decide, by decide, by decide, by decide⟩
  intro loc t1 t2 t3 h1 h2 h3 st
  rfl

/-- C2: a record whose status token is exactly `"Detected"` and whose six
sample tokens coerce to numbers publishes the channel's temperature as the
arithmetic mean of the 3 temperature samples and its humidity as the mean
of the 3 humidity samples after stripping the trailing percent sign, sets
the channel health to Normal, and the published means are independent of
the order of the three samples. -/
theorem detected_record_publishes_mean
    (idx loc t1 t2 t3 s1 s2 s3 : String) (st : AccessoryState)
    (hidx : idx = "1" ∨ idx = "2")
    (v1 v2 v3 w1 w2 w3 : ℚ)
    (ht1 : jsStrToNum t1 = some v1) (ht2 : jsStrToNum t2 = some v2)
    (ht3 : jsStrToNum t3 = some v3)
    (hs1 : jsStrToNum s1 = some w1) (hs2 : jsStrToNum s2 = some w2)
    (hs3 : jsStrToNum s3 = some w3) :
    ∃ st', scanTokens
        ["SHT", idx, loc, "Detected", t1, t2, t3, s1 ++ "%", s2 ++ "%", s3 ++ "%"] st
        = .ok st'
      ∧ (idx = "1" → st'.sensor1State = NO_FAULT
          ∧ st'.sensor1Temp = some ((v1 + v2 + v3) / 3)
          ∧ st'.sensor1Humid = some ((w1 + w2 + w3) / 3))
      ∧ (idx = "2" → st'.sensor2State = NO_FAULT
          ∧ st'.sensor2Temp = some ((v1 + v2 + v3) / 3)
          ∧ st'.sensor2Humid = some ((w1 + w2 + w3) / 3))
      ∧ (∀ u1 u2 u3 r1 r2 r3 : String,
          List.Perm [u1, u2, u3] [t1, t2, t3] → List.Perm [r1, r2, r3] [s1, s2, s3] →
          scanTokens
            ["SHT", idx, loc, "Detected", u1, u2, u3, r1 ++ "%", r2 ++ "%", r3 ++ "%"] st
          = scanTokens
            ["SHT", idx, loc, "Detected", t1, t2, t3, s1 ++ "%", s2 ++ "%", s3 ++ "%"] st) := by
  rcases hidx with h | h <;> subst h
  · refine ⟨setChanOk 1
        (jdiv3 (jadd (jadd (jsStrToNum t1) (jsStrToNum t2)) (jsStrToNum t3)))
        (jdiv3 (jadd (jadd (jsStrToNum (sliceLast (s1 ++ "%")))
          (jsStrToNum (sliceLast (s2 ++ "%")))) (jsStrToNum (sliceLast (s3 ++ "%"))))) st,
      rfl, ?_, ?_, ?_⟩
    · intro _
      rw [sliceLast_append_percent, sliceLast_append_percent, sliceLast_append_percent,
        ht1, ht2, ht3, hs1, hs2, hs3]
      refine ⟨rfl, ?_, ?_⟩ <;> simp [setChanOk, jadd, jdiv3, add_assoc]
    · intro h
      exact absurd h (by decide)
    · intro u1 u2 u3 r1 r2 r3 hp1 hp2
      have e1 : jadd (jadd (jsStrToNum u1) (jsStrToNum u2)) (jsStrToNum u3)
          = jadd (jadd (jsStrToNum t1) (jsStrToNum t2)) (jsStrToNum t3) :=
        jadd3_perm (by simpa using hp1.map jsStrToNum)
      have e2 : jadd (jadd (jsStrToNum (sliceLast (r1 ++ "%")))
            (jsStrToNum (sliceLast (r2 ++ "%")))) (jsStrToNum (sliceLast (r3 ++ "%")))
          = jadd (jadd (jsStrToNum (sliceLast (s1 ++ "%")))
            (jsStrToNum (sliceLast (s2 ++ "%")))) (jsStrToNum (sliceLast (s3 ++ "%"))) :=
        jadd3_perm (by simpa using hp2.map (fun s => jsStrToNum (sliceLast (s ++ "%"))))
      have L : scanTokens
          ["SHT", "1", loc, "Detected", u1, u2, u3, r1 ++ "%", r2 ++ "%", r3 ++ "%"] st
          = .ok (setChanOk 1
            (jdiv3 (jadd (jadd (jsStrToNum u1) (jsStrToNum u2)) (jsStrToNum u3)))
            (jdiv3 (jadd (jadd (jsStrToNum (sliceLast (r1 ++ "%")))
              (jsStrToNum (sliceLast (r2 ++ "%")))) (jsStrToNum (sliceLast (r3 ++ "%"))))) st) := rfl
      have R : scanTokens
          ["SHT", "1", loc, "Detected", t1, t2, t3, s1 ++ "%", s2 ++ "%", s3 ++ "%"] st
          = .ok (setChanOk 1
            (jdiv3 (jadd (jadd (jsStrToNum t1) (jsStrToNum t2)) (jsStrToNum t3)))
            (jdiv3 (jadd (jadd (jsStrToNum (sliceLast (s1 ++ "%")))
              (jsStrToNum (sliceLast (s2 ++ "%")))) (jsStrToNum (sliceLast (s3 ++ "%"))))) st) := rfl
      rw [L, R, e1, e2]
  · refine ⟨setChanOk 2
        (jdiv3 (jadd (jadd (jsStrToNum t1) (jsStrToNum t2)) (jsStrToNum t3)))
        (jdiv3 (jadd (jadd (jsStrToNum (sliceLast (s1 ++ "%")))
          (jsStrToNum (sliceLast (s2 ++ "%")))) (jsStrToNum (sliceLast (s3 ++ "%"))))) st,
      rfl, ?_, ?_, ?_⟩
    · intro h
      exact absurd h (by decide)
    · intro _
      rw [sliceLast_append_percent, sliceLast_append_percent, sliceLast_append_percent,
        ht1, ht2, ht3, hs1, hs2, hs3]
      refine ⟨rfl, ?_, ?_⟩ <;> simp [setChanOk, jadd, jdiv3, add_assoc]
    · intro u1 u2 u3 r1 r2 r3 hp1 hp2
      have e1 : jadd (jadd (jsStrToNum u1) (jsStrToNum u2)) (jsStrToNum u3)
          = jadd (jadd (jsStrToNum t1) (jsStrToNum t2)) (jsStrToNum t3) :=
        jadd3_perm (by simpa using hp1.map jsStrToNum)
      have e2 : jadd (jadd (jsStrToNum (sliceLast (r1 ++ "%")))
            (jsStrToNum (sliceLast (r2 ++ "%")))) (jsStrToNum (sliceLast (r3 ++ "%")))
          = jadd (jadd (jsStrToNum (sliceLast (s1 ++ "%")))
            (jsStrToNum (sliceLast (s2 ++ "%")))) (jsStrToNum (sliceLast (s3 ++ "%"))) :=
        jadd3_perm (by simpa using hp2.map (fun s => jsStrToNum (sliceLast (s ++ "%"))))
      have L : scanTokens
          ["SHT", "2", loc, "Detected", u1, u2, u3, r1 ++ "%", r2 ++ "%", r3 ++ "%"] st
          = .ok (setChanOk 2
            (jdiv3 (jadd (jadd (jsStrToNum u1) (jsStrToNum u2)) (jsStrToNum u3)))
            (jdiv3 (jadd (jadd (jsStrToNum (sliceLast (r1 ++ "%")))
              (jsStrToNum (sliceLast (r2 ++ "%")))) (jsStrToNum (sliceLast (r3 ++ "%"))))) st) := rfl
      have R : scanTokens
          ["SHT", "2", loc, "Detected", t1, t2, t3, s1 ++ "%", s2 ++ "%", s3 ++ "%"] st
          = .ok (setChanOk 2
            (jdiv3 (jadd (jadd (jsStrToNum t1) (jsStrToNum t2)) (jsStrToNum t3)))
            (jdiv3 (jadd (jadd (jsStrToNum (sliceLast (s1 ++ "%")))
              (jsStrToNum (sliceLast (s2 ++ "%")))) (jsStrToNum (sliceLast (s3 ++ "%"))))) st) := rfl
      rw [L, R, e1, e2]

/-- Witness for C2: the record `SHT,1,A,Detected,20,20,20,91%,91%,91%`
publishes channel 1 with temperature `(20+20+20)/3` and humidity
`(91+91+91)/3`, health Normal. -/
theorem detected_record_publishes_mean_wit :
    ∃ st', scanTokens
        ["SHT", "1", "A", "Detected", "20", "20", "20",
          "91" ++ "%", "91" ++ "%", "91" ++ "%"] initState = .ok st'
      ∧ st'.sensor1State = NO_FAULT
      ∧ st'.sensor1Temp = some ((20 + 20 + 20) / 3)
      ∧ st'.sensor1Humid = some ((91 + 91 + 91) / 3) := by
  obtain ⟨st', h1, h2, _, _⟩ :=
    detected_record_publishes_mean "1" "A" "20" "20" "20" "91" "91" "91" initState
      (Or.inl rfl) 20 20 20 91 91 91
      (by decide) (by decide) (by decide) (by decide) (by decide) (by decide)
  exact ⟨st', h1, (h2 rfl).1, (h2 rfl).2.1, (h2 rfl).2.2⟩

/-- Counterexample for C5: in the record
`SHT,1,A,Detected,x,0,0,0%,0%,0%` the temperature token `"x"` fails
numeric coercion, yet the code leaves channel 1's health at `NO_FAULT`
(not `Fault` as the claim states) and publishes the `NaN` aggregate as a
healthy reading. -/
theorem nonnumeric_sample_cex :
    (scanTokens ["SHT", "1", "A", "Detected", "x", "0", "0", "0%", "0%", "0%"]
      initState).state.sensor1State ≠ GENERAL_FAULT
  ∧ (scanTokens ["SHT", "1", "A", "Detected", "x", "0", "0", "0%", "0%", "0%"]
      initState).state.sensor1State = NO_FAULT
  ∧ (scanTokens ["SHT", "1", "A", "Detected", "x", "0", "0", "0%", "0%", "0%"]
      initState).state.sensor1Temp = none := by
  refine ⟨by decide, by decide, by decide⟩

/-- C5 (amended): a `"Detected"` record containing a temperature or
humidity sample token that fails numeric coercion (for humidities, after
the unconditional last-character slice) does not crash or terminate the
cycle, but the affected channel is NOT faulted: the code stores the `NaN`
aggregate — in the published temperature or humidity respectively — and
sets the channel's health to Normal (`NO_FAULT`). -/
theorem nonnumeric_sample_publishes_nan_healthy
    (idx loc t1 t2 t3 h1 h2 h3 : String) (st : AccessoryState)
    (hidx : idx = "1" ∨ idx = "2")
    (hnan : jsStrToNum t1 = none ∨ jsStrToNum t2 = none ∨ jsStrToNum t3 = none
      ∨ jsStrToNum (sliceLast h1) = none ∨ jsStrToNum (sliceLast h2) = none
      ∨ jsStrToNum (sliceLast h3) = none) :
    ∃ st', scanTokens ["SHT", idx, loc, "Detected", t1, t2, t3, h1, h2, h3] st = .ok st'
      ∧ (idx = "1" → st'.sensor1State = NO_FAULT
          ∧ (st'.sensor1Temp = none ∨ st'.sensor1Humid = none))
      ∧ (idx = "2" → st'.sensor2State = NO_FAULT
          ∧ (st'.sensor2Temp = none ∨ st'.sensor2Humid = none)) := by
  have hkey : jdiv3 (jadd (jadd (jsStrToNum t1) (jsStrToNum t2)) (jsStrToNum t3)) = none
      ∨ jdiv3 (jadd (jadd (jsStrToNum (sliceLast h1)) (jsStrToNum (sliceLast h2)))
          (jsStrToNum (sliceLast h3))) = none := by
    rcases hnan with h | h | h | h | h | h
    · exact Or.inl (by simp [h, jadd_none_left, jadd_none_right, jdiv3_none, jadd, jdiv3])
    · exact Or.inl (by simp [h, jadd_none_left, jadd_none_right, jdiv3_none, jadd, jdiv3])
    · exact Or.inl (by simp [h, jadd_none_left, jadd_none_right, jdiv3_none, jadd, jdiv3])
    · exact Or.inr (by simp [h, jadd_none_left, jadd_none_right, jdiv3_none, jadd, jdiv3])
    · exact Or.inr (by simp [h, jadd_none_left, jadd_none_right, jdiv3_none, jadd, jdiv3])
    · exact Or.inr (by simp [h, jadd_none_left, jadd_none_right, jdiv3_none, jadd, jdiv3])
  rcases hidx with h | h <;> subst h
  · refine ⟨setChanOk 1
        (jdiv3 (jadd (jadd (jsStrToNum t1) (jsStrToNum t2)) (jsStrToNum t3)))
        (jdiv3 (jadd (jadd (jsStrToNum (sliceLast h1)) (jsStrToNum (sliceLast h2)))
          (jsStrToNum (sliceLast h3)))) st, rfl, ?_, ?_⟩
    · intro _
      refine ⟨rfl, ?_⟩
      rcases hkey with h | h
      · exact Or.inl h
      · exact Or.inr h
    · intro h
      exact absurd h (by decide)
  · refine ⟨setChanOk 2
        (jdiv3 (jadd (jadd (jsStrToNum t1) (jsStrToNum t2)) (jsStrToNum t3)))
        (jdiv3 (jadd (jadd (jsStrToNum (sliceLast h1)) (jsStrToNum (sliceLast h2)))
          (jsStrToNum (sliceLast h3)))) st, rfl, ?_, ?_⟩
    · intro h
      exact absurd h (by decide)
    · intro _
      refine ⟨rfl, ?_⟩
      rcases hkey with h | h
      · exact Or.inl h
      · exact Or.inr h

/-- Witness for C5 (amended): the humidity token `"abc%"`, sliced to
`"abc"`, fails numeric coercion; the scan completes (no crash) and
publishes channel 2 with health Normal and a `NaN` aggregate. -/
theorem nonnumeric_sample_publishes_nan_healthy_wit :
    ∃ st', scanTokens ["SHT", "2", "B", "Detected", "0", "0", "0", "abc%", "0%", "0%"]
        initState = .ok st'
      ∧ st'.sensor2State = NO_FAULT
      ∧ (st'.sensor2Temp = none ∨ st'.sensor2Humid = none) := by
  obtain ⟨st', h1, _, h3⟩ :=
    nonnumeric_sample_publishes_nan_healthy "2" "B" "0" "0" "0" "abc%" "0%" "0%" initState
      (Or.inr rfl) (Or.inr (Or.inr (Or.inr (Or.inl (by decide)))))
  exact ⟨st', h1, (h3 rfl).1, (h3 rfl).2⟩

/-- C6: a record with a valid channel index whose status token is
anything other than exactly `"Detected"` sets that channel's health to
`Fault` and leaves the channel's previously published temperature and
humidity unchanged. -/
theorem non_detected_record_faults_channel
    (idx loc status a b c d e f : String) (st : AccessoryState)
    (hst : status ≠ "Detected") (hidx : idx = "1" ∨ idx = "2")
    (ha : a ≠ "SHT") (hb : b ≠ "SHT") (hc : c ≠ "SHT")
    (hd : d ≠ "SHT") (he : e ≠ "SHT") (hf : f ≠ "SHT") :
    ∃ st', scanTokens ["SHT", idx, loc, status, a, b, c, d, e, f] st = .ok st'
      ∧ (idx = "1" → st'.sensor1State = GENERAL_FAULT
          ∧ st'.sensor1Temp = st.sensor1Temp ∧ st'.sensor1Humid = st.sensor1Humid)
      ∧ (idx = "2" → st'.sensor2State = GENERAL_FAULT
          ∧ st'.sensor2Temp = st.sensor2Temp ∧ st'.sensor2Humid = st.sensor2Humid) := by
  rcases hidx with h | h <;> subst h
  · refine ⟨setChanFault 1 st, ?_, ?_, ?_⟩
    · simp [scanTokens, scanLoopF, scanStep, scanRecord, hst, ha, hc, he]
    · intro _
      exact ⟨rfl, rfl, rfl⟩
    · intro h
      exact absurd h (by decide)
  · refine ⟨setChanFault 2 st, ?_, ?_, ?_⟩
    · simp [scanTokens, scanLoopF, scanStep, scanRecord, hst, ha, hc, he]
    · intro h
      exact absurd h (by decide)
    · intro _
      exact ⟨rfl, rfl, rfl⟩

/-- Witness for C6: the spec's example record
`SHT,2,B,Not Detected,0,0,0,0%,0%,0%` faults channel 2 and leaves its
readings unchanged. -/
theorem non_detected_record_faults_channel_wit :
    ∃ st', scanTokens
        ["SHT", "2", "B", "Not Detected", "0", "0", "0", "0%", "0%", "0%"]
        { initState with sensor2Temp := some 21, sensor2Humid := some 55 } = .ok st'
      ∧ st'.sensor2State = GENERAL_FAULT
      ∧ st'.sensor2Temp = some 21 ∧ st'.sensor2Humid = some 55 := by
  obtain ⟨st', h1, _, h3⟩ :=
    non_detected_record_faults_channel "2" "B" "Not Detected" "0" "0" "0" "0%" "0%" "0%"
      { initState with sensor2Temp := some 21, sensor2Humid := some 55 }
      (by decide) (Or.inr rfl)
      (by decide) (by decide) (by decide) (by decide) (by decide) (by decide)
  exact ⟨st', h1, (h3 rfl).1, (h3 rfl).2.1, (h3 rfl).2.2⟩

/-- Counterexample for C4: in the payload
`SHT,1,A,Detected,20,20,20,50%,50%,50%,SHT,X` the trailing marker `"SHT"`
is followed by `"X"`, which is neither `"1"` nor `"2"`; because the
source never resets `thisSensor`, the malformed record is processed
against the stale channel 1 (`"X" ≠ "Detected"` so channel 1 is marked
faulted) instead of being skipped with all channel state untouched:
without the malformed record channel 1 ends the scan at `NO_FAULT`, with
it the same scan ends at `GENERAL_FAULT`. -/
theorem malformed_marker_cex :
    (scanTokens ["SHT", "1", "A", "Detected", "20", "20", "20", "50%", "50%", "50%"]
      initState).state.sensor1State = NO_FAULT
  ∧ (scanTokens
      ["SHT", "1", "A", "Detected", "20", "20", "20", "50%", "50%", "50%", "SHT", "X"]
      initState).state.sensor1State = GENERAL_FAULT
  ∧ ("X" : String) ≠ "1" ∧ ("X" : String) ≠ "2" := by
  refine ⟨by decide, by decide, by decide, by decide⟩

/-- C4 (amended): a token `"SHT"` followed by a token that is neither
`"1"` nor `"2"` is skipped with no change to any channel state only as
long as no earlier record in the payload has selected a channel
(`thisSensor` is still 0); in that case a well-formed record beginning
right after the two-token malformed marker is still parsed correctly,
the final state differing from the prior state only in the well-formed
record's own channel. (If an earlier record selected a channel, the
malformed marker is instead processed against that stale channel, as the
counterexample shows.) -/
theorem malformed_marker_skipped_when_no_prior_channel
    (x idx loc t1 t2 t3 s1 s2 s3 : String) (st : AccessoryState)
    (hx1 : x ≠ "1") (hx2 : x ≠ "2")
    (hidx : idx = "1" ∨ idx = "2")
    (v1 v2 v3 w1 w2 w3 : ℚ)
    (ht1 : jsStrToNum t1 = some v1) (ht2 : jsStrToNum t2 = some v2)
    (ht3 : jsStrToNum t3 = some v3)
    (hs1 : jsStrToNum s1 = some w1) (hs2 : jsStrToNum s2 = some w2)
    (hs3 : jsStrToNum s3 = some w3) :
    ∃ st', scanTokens
        ["SHT", x, "SHT", idx, loc, "Detected", t1, t2, t3,
          s1 ++ "%", s2 ++ "%", s3 ++ "%"] st = .ok st'
      ∧ (idx = "1" →
          st' = setChanOk 1 (some ((v1 + v2 + v3) / 3)) (some ((w1 + w2 + w3) / 3)) st)
      ∧ (idx = "2" →
          st' = setChanOk 2 (some ((v1 + v2 + v3) / 3)) (some ((w1 + w2 + w3) / 3)) st) := by
  rcases hidx with h | h <;> subst h
  · refine ⟨setChanOk 1 (some ((v1 + v2 + v3) / 3)) (some ((w1 + w2 + w3) / 3)) st,
      ?_, fun _ => rfl, fun h => absurd h (by decide)⟩
    simp [scanTokens, scanLoopF, scanStep, scanRecord, hx1, hx2, jsToNum, sliceLast_append_percent,
      ht1, ht2, ht3, hs1, hs2, hs3, jadd, jdiv3, setChanOk, add_assoc]
  · refine ⟨setChanOk 2 (some ((v1 + v2 + v3) / 3)) (some ((w1 + w2 + w3) / 3)) st,
      ?_, fun h => absurd h (by decide), fun _ => rfl⟩
    simp [scanTokens, scanLoopF, scanStep, scanRecord, hx1, hx2, jsToNum, sliceLast_append_percent,
      ht1, ht2, ht3, hs1, hs2, hs3, jadd, jdiv3, setChanOk, add_assoc]

/-- Witness for C4 (amended): the malformed marker `SHT,X` at the start
of the payload is skipped and the record that follows it is parsed. -/
theorem malformed_marker_skipped_when_no_prior_channel_wit :
    ∃ st', scanTokens
        ["SHT", "X", "SHT", "1", "A", "Detected", "20", "20", "20",
          "91" ++ "%", "91" ++ "%", "91" ++ "%"] initState = .ok st'
      ∧ st' = setChanOk 1 (some ((20 + 20 + 20) / 3)) (some ((91 + 91 + 91) / 3))
          initState := by
  obtain ⟨st', h1, h2, _⟩ :=
    malformed_marker_skipped_when_no_prior_channel "X" "1" "A" "20" "20" "20"
      "91" "91" "91" initState (by decide) (by decide) (Or.inl rfl) 20 20 20 91 91 91
      (by decide) (by decide) (by decide) (by decide) (by decide) (by decide)
  exact ⟨st', h1, h2 rfl⟩

/-! ### Channel frame lemmas for the scan loop (used for C7) -/

theorem scanRecord_frame1 (sd : List String) (j ts : Nat) (st : AccessoryState)
    (hts : ts ≠ 1) :
    (∀ st', scanRecord sd j ts st = .error st' →
      st'.sensor1State = st.sensor1State ∧ st'.sensor1Temp = st.sensor1Temp
        ∧ st'.sensor1Humid = st.sensor1Humid)
  ∧ (∀ j' ts' st', scanRecord sd j ts st = .ok (j', ts', st') →
      ts' ≠ 1 ∧ st'.sensor1State = st.sensor1State ∧ st'.sensor1Temp = st.sensor1Temp
        ∧ st'.sensor1Humid = st.sensor1Humid) := by
  unfold scanRecord
  by_cases hD : sd.get? j = some "Detected"
  · rw [if_pos hD]
    rcases sd.get? (j + 4) with _ | t4
    · constructor
      · intro st' h
        injection h with h1
        subst h1
        exact ⟨rfl, rfl, rfl⟩
      · intro j' ts' st' h
        cases h
    · rcases sd.get? (j + 5) with _ | t5
      · constructor
        · intro st' h
          injection h with h1
          subst h1
          exact ⟨rfl, rfl, rfl⟩
        · intro j' ts' st' h
          cases h
      · rcases sd.get? (j + 6) with _ | t6
        · constructor
          · intro st' h
            injection h with h1
            subst h1
            exact ⟨rfl, rfl, rfl⟩
          · intro j' ts' st' h
            cases h
        · constructor
          · intro st' h
            cases h
          · intro j' ts' st' h
            simp only [Except.ok.injEq, Prod.mk.injEq] at h
            obtain ⟨e1, e2, e3⟩ := h
            subst e2
            subst e3
            exact ⟨hts, by simp [setChanOk, hts]⟩
  · rw [if_neg hD]
    constructor
    · intro st' h
      cases h
    · intro j' ts' st' h
      simp only [Except.ok.injEq, Prod.mk.injEq] at h
      obtain ⟨e1, e2, e3⟩ := h
      subst e2
      subst e3
      exact ⟨hts, by simp [setChanFault, hts]⟩

theorem scanRecord_frame2 (sd : List String) (j ts : Nat) (st : AccessoryState)
    (hts : ts = 1) :
    (∀ st', scanRecord sd j ts st = .error st' →
      st'.sensor2State = st.sensor2State ∧ st'.sensor2Temp = st.sensor2Temp
        ∧ st'.sensor2Humid = st.sensor2Humid)
  ∧ (∀ j' ts' st', scanRecord sd j ts st = .ok (j', ts', st') →
      ts' = 1 ∧ st'.sensor2State = st.sensor2State ∧ st'.sensor2Temp = st.sensor2Temp
        ∧ st'.sensor2Humid = st.sensor2Humid) := by
  subst hts
  unfold scanRecord
  by_cases hD : sd.get? j = some "Detected"
  · rw [if_pos hD]
    rcases sd.get? (j + 4) with _ | t4
    · constructor
      · intro st' h
        injection h with h1
        subst h1
        exact ⟨rfl, rfl, rfl⟩
      · intro j' ts' st' h
        cases h
    · rcases sd.get? (j + 5) with _ | t5
      · constructor
        · intro st' h
          injection h with h1
          subst h1
          exact ⟨rfl, rfl, rfl⟩
        · intro j' ts' st' h
          cases h
      · rcases sd.get? (j + 6) with _ | t6
        · constructor
          · intro st' h
            injection h with h1
            subst h1
            exact ⟨rfl, rfl, rfl⟩
          · intro j' ts' st' h
            cases h
        · constructor
          · intro st' h
            cases h
          · intro j' ts' st' h
            simp only [Except.ok.injEq, Prod.mk.injEq] at h
            obtain ⟨e1, e2, e3⟩ := h
            subst e2
            subst e3
            exact ⟨rfl, by simp [setChanOk]⟩
  · rw [if_neg hD]
    constructor
    · intro st' h
      cases h
    · intro j' ts' st' h
      simp only [Except.ok.injEq, Prod.mk.injEq] at h
      obtain ⟨e1, e2, e3⟩ := h
      subst e2
      subst e3
      exact ⟨rfl, by simp [setChanFault]⟩

theorem scanStep_frame1 (sd : List String) (i ts : Nat) (st : AccessoryState)
    (H : ∀ k, sd.get? k = some "SHT" → sd.get? (k + 1) ≠ some "1")
    (hts : ts ≠ 1) :
    (∀ st', scanStep sd i ts st = .error st' →
      st'.sensor1State = st.sensor1State ∧ st'.sensor1Temp = st.sensor1Temp
        ∧ st'.sensor1Humid = st.sensor1Humid)
  ∧ (∀ j ts' st', scanStep sd i ts st = .ok (j, ts', st') →
      ts' ≠ 1 ∧ st'.sensor1State = st.sensor1State ∧ st'.sensor1Temp = st.sensor1Temp
        ∧ st'.sensor1Humid = st.sensor1Humid) := by
  unfold scanStep
  by_cases h0 : sd.get? i = some "SHT"
  · rw [if_pos h0]
    by_cases h1 : sd.get? (i + 1) = some "1"
    · exact absurd h1 (H i h0)
    · rw [if_neg h1]
      by_cases h2 : sd.get? (i + 1) = some "2"
      · rw [if_pos h2]
        exact scanRecord_frame1 sd (i + 3) 2 st (by decide)
      · rw [if_neg h2]
        by_cases h3 : 0 < ts
        · rw [if_pos h3]
          exact scanRecord_frame1 sd (i + 1) ts st hts
        · rw [if_neg h3]
          constructor
          · intro st' h
            cases h
          · intro j ts' st' h
            simp only [Except.ok.injEq, Prod.mk.injEq] at h
            obtain ⟨e1, e2, e3⟩ := h
            subst e2
            subst e3
            exact ⟨hts, rfl, rfl, rfl⟩
  · rw [if_neg h0]
    constructor
    · intro st' h
      cases h
    · intro j ts' st' h
      simp only [Except.ok.injEq, Prod.mk.injEq] at h
      obtain ⟨e1, e2, e3⟩ := h
      subst e2
      subst e3
      exact ⟨hts, rfl, rfl, rfl⟩

theorem scanStep_frame2 (sd : List String) (i ts : Nat) (st : AccessoryState)
    (H : ∀ k, sd.get? k = some "SHT" → sd.get? (k + 1) ≠ some "2")
    (hts : ts = 0 ∨ ts = 1) :
    (∀ st', scanStep sd i ts st = .error st' →
      st'.sensor2State = st.sensor2State ∧ st'.sensor2Temp = st.sensor2Temp
        ∧ st'.sensor2Humid = st.sensor2Humid)
  ∧ (∀ j ts' st', scanStep sd i ts st = .ok (j, ts', st') →
      (ts' = 0 ∨ ts' = 1) ∧ st'.sensor2State = st.sensor2State
        ∧ st'.sensor2Temp = st.sensor2Temp ∧ st'.sensor2Humid = st.sensor2Humid) := by
  unfold scanStep
  by_cases h0 : sd.get? i = some "SHT"
  · rw [if_pos h0]
    by_cases h1 : sd.get? (i + 1) = some "1"
    · rw [if_pos h1]
      have hr := scanRecord_frame2 sd (i + 3) 1 st rfl
      refine ⟨hr.1, ?_⟩
      intro j ts' st' h
      have := hr.2 j ts' st' h
      exact ⟨Or.inr this.1, this.2⟩
    · rw [if_neg h1]
      by_cases h2 : sd.get? (i + 1) = some "2"
      · exact absurd h2 (H i h0)
      · rw [if_neg h2]
        by_cases h3 : 0 < ts
        · rw [if_pos h3]
          have hts1 : ts = 1 := by
            rcases hts with h | h
            · exact absurd h (by omega)
            · exact h
          have hr := scanRecord_frame2 sd (i + 1) ts st hts1
          refine ⟨hr.1, ?_⟩
          intro j ts' st' h
          have := hr.2 j ts' st' h
          exact ⟨Or.inr this.1, this.2⟩
        · rw [if_neg h3]
          constructor
          · intro st' h
            cases h
          · intro j ts' st' h
            simp only [Except.ok.injEq, Prod.mk.injEq] at h
            obtain ⟨e1, e2, e3⟩ := h
            subst e2
            subst e3
            exact ⟨hts, rfl, rfl, rfl⟩
  · rw [if_neg h0]
    constructor
    · intro st' h
      cases h
    · intro j ts' st' h
      simp only [Except.ok.injEq, Prod.mk.injEq] at h
      obtain ⟨e1, e2, e3⟩ := h
      subst e2
      subst e3
      exact ⟨hts, rfl, rfl, rfl⟩

theorem scanLoopF_frame1 (sd : List String)
    (H : ∀ k, sd.get? k = some "SHT" → sd.get? (k + 1) ≠ some "1") :
    ∀ fuel i ts st, ts ≠ 1 →
      (scanLoopF sd fuel i ts st).state.sensor1State = st.sensor1State
      ∧ (scanLoopF sd fuel i ts st).state.sensor1Temp = st.sensor1Temp
      ∧ (scanLoopF sd fuel i ts st).state.sensor1Humid = st.sensor1Humid := by
  intro fuel
  induction fuel with
  | zero =>
    intro i ts st _
    exact ⟨rfl, rfl, rfl⟩
  | succ n ih =>
    intro i ts st hts
    rcases hstep : scanStep sd i ts st with st' | ⟨j, ts', st'⟩
    · have hp := (scanStep_frame1 sd i ts st H hts).1 st' hstep
      simp only [scanLoopF, hstep, ScanOut.state]
      exact hp
    · have hp := (scanStep_frame1 sd i ts st H hts).2 j ts' st' hstep
      by_cases hj : j + 1 < sd.length
      · have ihh := ih (j + 1) ts' st' hp.1
        simp only [scanLoopF, hstep, if_pos hj]
        exact ⟨ihh.1.trans hp.2.1, ihh.2.1.trans hp.2.2.1, ihh.2.2.trans hp.2.2.2⟩
      · simp only [scanLoopF, hstep, if_neg hj, ScanOut.state]
        exact hp.2

theorem scanLoopF_frame2 (sd : List String)
    (H : ∀ k, sd.get? k = some "SHT" → sd.get? (k + 1) ≠ some "2") :
    ∀ fuel i ts st, ts = 0 ∨ ts = 1 →
      (scanLoopF sd fuel i ts st).state.sensor2State = st.sensor2State
      ∧ (scanLoopF sd fuel i ts st).state.sensor2Temp = st.sensor2Temp
      ∧ (scanLoopF sd fuel i ts st).state.sensor2Humid = st.sensor2Humid := by
  intro fuel
  induction fuel with
  | zero =>
    intro i ts st _
    exact ⟨rfl, rfl, rfl⟩
  | succ n ih =>
    intro i ts st hts
    rcases hstep : scanStep sd i ts st with st' | ⟨j, ts', st'⟩
    · have hp := (scanStep_frame2 sd i ts st H hts).1 st' hstep
      simp only [scanLoopF, hstep, ScanOut.state]
      exact hp
    · have hp := (scanStep_frame2 sd i ts st H hts).2 j ts' st' hstep
      by_cases hj : j + 1 < sd.length
      · have ihh := ih (j + 1) ts' st' hp.1
        simp only [scanLoopF, hstep, if_pos hj]
        exact ⟨ihh.1.trans hp.2.1, ihh.2.1.trans hp.2.2.1, ihh.2.2.trans hp.2.2.2⟩
      · simp only [scanLoopF, hstep, if_neg hj, ScanOut.state]
        exact hp.2

/-- C7: a successfully fetched payload containing no record for a given
channel index leaves that channel's published temperature, humidity and
health exactly as they were after the prior cycle — absence does not
force the channel to `Fault`.  "No record for channel `n`" is read off
the token stream: no token `"SHT"` is immediately followed by the
channel's index. -/
theorem absent_channel_left_unchanged (T : ℚ) (raw : String) (st : AccessoryState) :
    ((∀ k, k < (normalizeRaw raw).length →
        ¬((normalizeRaw raw).get? k = some "SHT"
          ∧ (normalizeRaw raw).get? (k + 1) = some "1")) →
      (processPayload T raw st).state.sensor1State = st.sensor1State
      ∧ (processPayload T raw st).state.sensor1Temp = st.sensor1Temp
      ∧ (processPayload T raw st).state.sensor1Humid = st.sensor1Humid)
  ∧ ((∀ k, k < (normalizeRaw raw).length →
        ¬((normalizeRaw raw).get? k = some "SHT"
          ∧ (normalizeRaw raw).get? (k + 1) = some "2")) →
      (processPayload T raw st).state.sensor2State = st.sensor2State
      ∧ (processPayload T raw st).state.sensor2Temp = st.sensor2Temp
      ∧ (processPayload T raw st).state.sensor2Humid = st.sensor2Humid) := by
  constructor
  · intro H
    have H' : ∀ k, (normalizeRaw raw).get? k = some "SHT" →
        (normalizeRaw raw).get? (k + 1) ≠ some "1" := by
      intro k hk hk1
      by_cases hlen : k < (normalizeRaw raw).length
      · exact H k hlen ⟨hk, hk1⟩
      · rw [List.get?_eq_none.mpr (Nat.le_of_not_lt hlen)] at hk
        cases hk
    have hp := scanLoopF_frame1 (normalizeRaw raw) H'
      ((normalizeRaw raw).length + 1) 0 0 st (by decide)
    have hu := fun st' => updateAlert_frame T st'
    rcases hscan : scanLoopF (normalizeRaw raw) ((normalizeRaw raw).length + 1) 0 0 st
        with st' | st' <;> rw [hscan] at hp
    · have heq : processPayload T raw st = .ok (updateAlert T st') := by
        simp only [processPayload, scanTokens, hscan]
      rw [heq]
      exact ⟨(hu st').2.1.trans hp.1, (hu st').2.2.1.trans hp.2.1,
        (hu st').2.2.2.1.trans hp.2.2⟩
    · have heq : processPayload T raw st = .crashed st' := by
        simp only [processPayload, scanTokens, hscan]
      rw [heq]
      exact hp
  · intro H
    have H' : ∀ k, (normalizeRaw raw).get? k = some "SHT" →
        (normalizeRaw raw).get? (k + 1) ≠ some "2" := by
      intro k hk hk1
      by_cases hlen : k < (normalizeRaw raw).length
      · exact H k hlen ⟨hk, hk1⟩
      · rw [List.get?_eq_none.mpr (Nat.le_of_not_lt hlen)] at hk
        cases hk
    have hp := scanLoopF_frame2 (normalizeRaw raw) H'
      ((normalizeRaw raw).length + 1) 0 0 st (Or.inl rfl)
    have hu := fun st' => updateAlert_frame T st'
    rcases hscan : scanLoopF (normalizeRaw raw) ((normalizeRaw raw).length + 1) 0 0 st
        with st' | st' <;> rw [hscan] at hp
    · have heq : processPayload T raw st = .ok (updateAlert T st') := by
        simp only [processPayload, scanTokens, hscan]
      rw [heq]
      exact ⟨(hu st').2.2.2.2.1.trans hp.1, (hu st').2.2.2.2.2.1.trans hp.2.1,
        (hu st').2.2.2.2.2.2.trans hp.2.2⟩
    · have heq : processPayload T raw st = .crashed st' := by
        simp only [processPayload, scanTokens, hscan]
      rw [heq]
      exact hp

/-- Witness for C7: a payload reporting only channel 2 leaves channel 1's
health, temperature and humidity untouched. -/
theorem absent_channel_left_unchanged_wit :
    (processPayload 90 "SHT,2,B,Detected,1,2,3,4%,5%,6%"
      { initState with sensor1Temp := some 21, sensor1Humid := some 55 }).state.sensor1State
      = NO_FAULT
  ∧ (processPayload 90 "SHT,2,B,Detected,1,2,3,4%,5%,6%"
      { initState with sensor1Temp := some 21, sensor1Humid := some 55 }).state.sensor1Temp
      = some 21
  ∧ (processPayload 90 "SHT,2,B,Detected,1,2,3,4%,5%,6%"
      { initState with sensor1Temp := some 21, sensor1Humid := some 55 }).state.sensor1Humid
      = some 55 :=
  (absent_channel_left_unchanged 90 "SHT,2,B,Detected,1,2,3,4%,5%,6%"
    { initState with sensor1Temp := some 21, sensor1Humid := some 55 }).1 (by decide)

/-- Counterexample for C3: the claim covers timeouts among the transport
failures, but when no transport event at all arrives within the 3-second
window (`FetchOutcome.silent` — a hung request) no callback ever writes
`deviceState`, so from a healthy prior state the cycle ends with
`deviceFault = NoFault`, not `GeneralFault` as claimed.  (The four
numeric channel fields are indeed left unchanged.) -/
theorem transport_timeout_cex :
    (pollCycleV2 90 .silent initState).state.deviceState = NO_FAULT
  ∧ ¬((pollCycleV2 90 .silent initState).state.deviceState = GENERAL_FAULT) := by
  refine ⟨by decide, by decide⟩

/-- C3 (amended): a poll cycle whose fetch ends in a connection error or
a non-200 response leaves all four numeric channel fields exactly equal
to their pre-failure values (the whole processing block is skipped) and
sets `deviceFault = GeneralFault`; a cycle in which no transport event
arrives within the 3-second window also leaves the four numeric fields
unchanged, but keeps the previous `deviceFault` value instead of setting
`GeneralFault` (and, when that previous value was `NoFault`, it parses
the empty buffer). -/
theorem transport_failure_preserves_readings (T : ℚ) (st : AccessoryState) :
    (pollCycleV2 T .connError st = .ok { st with deviceState := GENERAL_FAULT })
  ∧ (∀ code body, code ≠ 200 →
      pollCycleV2 T (.response code body) st = .ok { st with deviceState := GENERAL_FAULT })
  ∧ (∃ st', pollCycleV2 T .silent st = .ok st'
      ∧ st'.deviceState = st.deviceState
      ∧ st'.sensor1Temp = st.sensor1Temp ∧ st'.sensor1Humid = st.sensor1Humid
      ∧ st'.sensor2Temp = st.sensor2Temp ∧ st'.sensor2Humid = st.sensor2Humid) := by
  refine ⟨?_, ?_, ?_⟩
  · simp [pollCycleV2, fetchPhase, GENERAL_FAULT, NO_FAULT]
  · intro code body hcode
    simp [pollCycleV2, fetchPhase, hcode, GENERAL_FAULT, NO_FAULT]
  · by_cases hdev : st.deviceState = NO_FAULT
    · have hscan : scanTokens (normalizeRaw "") st = .ok st := rfl
      refine ⟨updateAlert T st, ?_, ?_⟩
      · simp [pollCycleV2, fetchPhase, hdev, processPayload, hscan]
      · have hu := updateAlert_frame T st
        exact ⟨hu.1, hu.2.2.1, hu.2.2.2.1, hu.2.2.2.2.2.1, hu.2.2.2.2.2.2⟩
    · refine ⟨st, ?_, rfl, rfl, rfl, rfl, rfl⟩
      simp [pollCycleV2, fetchPhase, hdev]

/-- Witness for C3 (amended): a non-200 response (HTTP 500) and a
connection error both preserve the readings and set `GeneralFault`;
instantiated at a concrete prior state. -/
theorem transport_failure_preserves_readings_wit :
    pollCycleV2 90 (.response 500 "junk")
      { initState with sensor1Humid := some 42 }
      = .ok { { initState with sensor1Humid := some 42 }
          with deviceState := GENERAL_FAULT } :=
  (transport_failure_preserves_readings 90
    { initState with sensor1Humid := some 42 }).2.1 500 "junk" (by decide)

/-! ### The poll scheduler as a transition system

`pollState` manages a single timer slot (`stateTimer`): it clears any
existing timer and arms a new one `pollTimer` seconds ahead.  When that
timer fires, `pollSensorState` runs: it issues an `http.get` (never
cancelled) and arms an anonymous 3-second `setTimeout` whose callback
does the parse/aggregate/alert work and then calls `pollState` again —
unless the callback throws, in which case no rearm happens.  Time is in
whole seconds; due timers must fire before time advances past them. -/

/-- Scheduler state: current time, the `stateTimer` slot (fire time), the
pending 3-second processing callbacks of in-flight cycles (fire times),
and the number of outstanding HTTP requests. -/
structure SchedState where
  now : Nat
  stateTimer : Option Nat
  procTimers : List Nat
  fetches : Nat
  deriving DecidableEq, Repr

/-- One scheduler event.  `p` is the configured poll interval in seconds;
`ext` enables external `pollState` calls (as `getServices` makes), beyond
the rearm performed at the end of a completed cycle. -/
inductive SchedStep (p : Nat) (ext : Bool) : SchedState → SchedState → Prop where
  | callPollState (s : SchedState) (hx : ext = true) :
      SchedStep p ext s { s with stateTimer := some (s.now + p) }
  | fireStateTimer (s : SchedState) (t : Nat)
      (ht : s.stateTimer = some t) (hd : t ≤ s.now) :
      SchedStep p ext s { s with stateTimer := none, procTimers := (s.now + 3) :: s.procTimers, fetches := s.fetches + 1 }
  | fireProcTimer (s : SchedState) (t : Nat)
      (ht : t ∈ s.procTimers) (hd : t ≤ s.now) :
      SchedStep p ext s { s with procTimers := s.procTimers.erase t, stateTimer := some (s.now + p) }
  | fireProcTimerCrash (s : SchedState) (t : Nat)
      (ht : t ∈ s.procTimers) (hd : t ≤ s.now) :
      SchedStep p ext s { s with procTimers := s.procTimers.erase t }
  | fetchDone (s : SchedState) (h : 0 < s.fetches) :
      SchedStep p ext s { s with fetches := s.fetches - 1 }
  | advance (s : SchedState)
      (h1 : ∀ t, s.stateTimer = some t → s.now < t)
      (h2 : ∀ t ∈ s.procTimers, s.now < t) :
      SchedStep p ext s { s with now := s.now + 1 }

/-- The scheduler state right after the initial `pollState()` call made
from `getServices` at time 0. -/
def startState (p : Nat) : SchedState :=
  { now := 0, stateTimer := some p, procTimers := [], fetches := 0 }

/-- Modelled from the spec: the scheduler's `stop()` operation.  No stop
function exists anywhere in src/; its body mirrors the clear-timer block
at the top of `pollState` (`clearTimeout(stateTimer); stateTimer = null`),
which is the only cancellation code the source contains. -/
def stop (s : SchedState) : SchedState :=
  { s with stateTimer := none }

/-- C9: `stop` cancels any pending scheduled trigger, is safe to call
when no cycle is pending, and is idempotent. -/
theorem stop_cancels_and_idempotent (s : SchedState) :
    (stop s).stateTimer = none
  ∧ stop (stop s) = stop s
  ∧ (s.stateTimer = none → stop s = s) := by
  refine ⟨rfl, rfl, ?_⟩
  intro h
  cases s
  simp only at h
  simp [stop, h]

/-- Witness for C9: stopping an idle scheduler (no pending trigger)
changes nothing. -/
theorem stop_cancels_and_idempotent_wit :
    stop { now := 5, stateTimer := none, procTimers := [], fetches := 0 }
      = { now := 5, stateTimer := none, procTimers := [], fetches := 0 } :=
  (stop_cancels_and_idempotent
    { now := 5, stateTimer := none, procTimers := [], fetches := 0 }).2.2 rfl

/-- Counterexample for C8: two fetches can be in flight at once.  With
poll interval 2 s, the initial `pollState` arms the timer for t = 2; the
cycle starting at t = 2 issues an HTTP request and schedules its
processing callback for t = 5; the request never completes (it is never
cancelled), processing of the empty buffer at t = 5 rearms the timer for
t = 7, and the cycle starting at t = 7 issues a second request while the
first is still outstanding: a reachable state with `fetches = 2`. -/
theorem overlapping_fetches_cex :
    Relation.ReflTransGen (SchedStep 2 true)
      { now := 0, stateTimer := none, procTimers := [], fetches := 0 }
      { now := 7, stateTimer := none, procTimers := [10], fetches := 2 }
  ∧ ({ now := 7, stateTimer := none, procTimers := [10], fetches := 2 }
      : SchedState).fetches = 2 := by
  constructor
  · have h1 : SchedStep 2 true ⟨0, none, [], 0⟩ ⟨0, some 2, [], 0⟩ :=
      .callPollState _ rfl
    have h2 : SchedStep 2 true ⟨0, some 2, [], 0⟩ ⟨1, some 2, [], 0⟩ := by
      refine .advance _ ?_ ?_
      · intro t ht
        injection ht with h
        subst h
        decide
      · intro t ht
        cases ht
    have h3 : SchedStep 2 true ⟨1, some 2, [], 0⟩ ⟨2, some 2, [], 0⟩ := by
      refine .advance _ ?_ ?_
      · intro t ht
        injection ht with h
        subst h
        decide
      · intro t ht
        cases ht
    have h4 : SchedStep 2 true ⟨2, some 2, [], 0⟩ ⟨2, none, [5], 1⟩ :=
      .fireStateTimer _ 2 rfl (by decide)
    have h5 : SchedStep 2 true ⟨2, none, [5], 1⟩ ⟨3, none, [5], 1⟩ := by
      refine .advance _ ?_ ?_
      · intro t ht
        cases ht
      · intro t ht
        obtain rfl := List.mem_singleton.mp ht
        decide
    have h6 : SchedStep 2 true ⟨3, none, [5], 1⟩ ⟨4, none, [5], 1⟩ := by
      refine .advance _ ?_ ?_
      · intro t ht
        cases ht
      · intro t ht
        obtain rfl := List.mem_singleton.mp ht
        decide
    have h7 : SchedStep 2 true ⟨4, none, [5], 1⟩ ⟨5, none, [5], 1⟩ := by
      refine .advance _ ?_ ?_
      · intro t ht
        cases ht
      · intro t ht
        obtain rfl := List.mem_singleton.mp ht
        decide
    have h8 : SchedStep 2 true ⟨5, none, [5], 1⟩ ⟨5, some 7, [], 1⟩ :=
      .fireProcTimer _ 5 (by decide) (by decide)
    have h9 : SchedStep 2 true ⟨5, some 7, [], 1⟩ ⟨6, some 7, [], 1⟩ := by
      refine .advance _ ?_ ?_
      · intro t ht
        injection ht with h
        subst h
        decide
      · intro t ht
        cases ht
    have h10 : SchedStep 2 true ⟨6, some 7, [], 1⟩ ⟨7, some 7, [], 1⟩ := by
      refine .advance _ ?_ ?_
      · intro t ht
        injection ht with h
        subst h
        decide
      · intro t ht
        cases ht
    have h11 : SchedStep 2 true ⟨7, some 7, [], 1⟩ ⟨7, none, [10], 2⟩ :=
      .fireStateTimer _ 7 rfl (by decide)
    exact .head h1 (.head h2 (.head h3 (.head h4 (.head h5 (.head h6 (.head h7
      (.head h8 (.head h9 (.head h10 (.single h11))))))))))
  · rfl

/-- C8 (amended): the scheduler's self-rearm chain never overlaps
processing pipelines: in every state reachable from a single `start`
(`pollState`) call without further external calls, at most one cycle's
fetch+parse+aggregate+debounce pipeline is pending, and while the rearm
timer is armed no pipeline is in flight — because the timer is rearmed
only when a cycle's processing completes.  (The underlying HTTP fetches
are never cancelled, however, and can overlap — see the counterexample —
and an external `pollState` call during an in-flight cycle with a poll
interval shorter than the 3-second processing window can overlap whole
pipelines as well.) -/
theorem single_pipeline_in_flight (p : Nat) (s : SchedState)
    (h : Relation.ReflTransGen (SchedStep p false) (startState p) s) :
    s.procTimers.length ≤ 1
  ∧ (s.stateTimer.isSome = true → s.procTimers = []) := by
  induction h with
  | refl => exact ⟨by simp [startState], fun _ => rfl⟩
  | @tail b c hab step ih =>
    cases step with
    | callPollState hx => cases hx
    | fireStateTimer t ht hd =>
      have hempty : b.procTimers = [] := ih.2 (by rw [ht]; rfl)
      constructor
      · simp [hempty]
      · intro hsome
        cases hsome
    | fireProcTimer t ht hd =>
      have hsingle : b.procTimers = [t] := by
        rcases hl : b.procTimers with _ | ⟨a, l⟩
        · rw [hl] at ht
          cases ht
        · rcases l with _ | ⟨a', l'⟩
          · rw [hl] at ht
            obtain rfl := List.mem_singleton.mp ht
            rfl
          · have h1 := ih.1
            rw [hl] at h1
            simp at h1
      constructor
      · simp [hsingle]
      · intro _
        simp [hsingle]
    | fireProcTimerCrash t ht hd =>
      have hsingle : b.procTimers = [t] := by
        rcases hl : b.procTimers with _ | ⟨a, l⟩
        · rw [hl] at ht
          cases ht
        · rcases l with _ | ⟨a', l'⟩
          · rw [hl] at ht
            obtain rfl := List.mem_singleton.mp ht
            rfl
          · have h1 := ih.1
            rw [hl] at h1
            simp at h1
      constructor
      · simp [hsingle]
      · intro hsome
        have hempty := ih.2 hsome
        rw [hempty] at ht
        cases ht
    | fetchDone hf => exact ih
    | advance h1 h2 => exact ih

/-- Witness for C8 (amended): the invariant holds at the start state,
reachable by the empty step sequence with the default 30-second poll
interval. -/
theorem single_pipeline_in_flight_wit :
    (startState 30).procTimers.length ≤ 1 :=
  (single_pipeline_in_flight 30 (startState 30) .refl).1

end LeakAlarm
